import Mathlib

/-!
Shallow embedding of the Timeclock core (Go): the session state machine
(domain/state.go), the interval store with the close-and-slice protocol and
the day slicer (storage/db.go), and restoration.

Modelling conventions:
* UTC instants are `Int` epoch seconds (the database persists epoch seconds).
* The system local time zone is modelled as a fixed UTC offset in seconds
  (`o : Int`); `time.Time` instants are zone-independent, and the slicer only
  uses the zone to compute local midnights and date labels.
* `date_local` strings of the form YYYY-MM-DD are modelled as civil-date
  triples (year, month, day) computed from the local day number; the mapping
  between the triple and the formatted string is a bijection.
* SQL tables are lists of rows with explicit autoincrement counters; a
  `SELECT ... ORDER BY id DESC LIMIT 1` is a maximum-by-id scan.
* `db.Exec` write failures are modelled by a schedule of outcomes
  (`List Bool`, one entry consumed per write, `true` = success, an empty
  schedule means every write succeeds); a SQL transaction commits as one
  single fallible unit. The diagnostic `user_tz` column of `events` carries
  no logic and is omitted.
-/

namespace Timeclock

/-- Session states of the state machine (domain `State`). -/
inductive State where
  | Stopped
  | InProgress
  | Paused
deriving DecidableEq

/-- Error outcomes of the core operations.  `noOpenInterval` is the declared
`ErrNoOpenInterval` sentinel; `findOpenIntervalFailed e` is the
`fmt.Errorf("find open interval: %w", e)` wrapper; `noRows` is
`sql.ErrNoRows`; `writeFailed` is an injected storage write failure. -/
inductive Err where
  | invalidTransition
  | categoryRequired
  | noOpenInterval
  | noRows
  | findOpenIntervalFailed (inner : Err)
  | writeFailed
deriving DecidableEq

/-- One row of the `events` table (without the diagnostic `user_tz`). -/
structure EventRow where
  id : Nat
  sessionID : String
  timestampUTC : Int
  action : String
  category : String
  description : String
deriving DecidableEq

/-- One row of the `intervals` table. -/
structure IntervalRow where
  id : Nat
  sessionID : String
  intervalIndex : Nat
  startUTC : Int
  endUTC : Option Int
  category : String
  description : String
  durationSeconds : Option Int
deriving DecidableEq

/-- The local calendar date label of a day slice: (year, month, day). -/
abbrev CivilDate := Int × Int × Int

/-- One row of the `interval_days` table. -/
structure SliceRow where
  id : Nat
  intervalID : Nat
  sessionID : String
  dateLocal : CivilDate
  category : String
  description : String
  durationSeconds : Int
deriving DecidableEq

/-- The SQLite database: three tables plus autoincrement counters. -/
structure DB where
  events : List EventRow
  intervals : List IntervalRow
  slices : List SliceRow
  nextEventId : Nat
  nextIntervalId : Nat
  nextSliceId : Nat
deriving DecidableEq

/-- The freshly migrated empty database (AUTOINCREMENT starts at 1). -/
def emptyDB : DB :=
  { events := [], intervals := [], slices := [],
    nextEventId := 1, nextIntervalId := 1, nextSliceId := 1 }

/-- In-memory application state (domain `AppState`, less the lock and the DB
handle, which are threaded explicitly). -/
structure AppState where
  currentState : State
  sessionID : String
  category : String
  description : String
  intervalIndex : Nat
  intervalStart : Int
  roundToNearestMinute : Bool
deriving DecidableEq

/-- Model of `NewAppState`: initial in-memory state (Stopped). -/
def newAppState : AppState :=
  { currentState := State.Stopped, sessionID := "", category := "",
    description := "", intervalIndex := 0, intervalStart := 0,
    roundToNearestMinute := true }

/-- Event action strings. -/
def actStart : String := "START"

/-- PAUSE action string. -/
def actPause : String := "PAUSE"

/-- RESUME action string. -/
def actResume : String := "RESUME"

/-- STOP action string. -/
def actStop : String := "STOP"

/-! ### Day slicer (storage `sliceIntervalIntoDays`) -/

/-- Seconds per day. -/
def secPerDay : Int := 86400

/-- Local calendar day number of the UTC instant `t` in the fixed-offset zone
`o`: floor of the local wall-clock time divided by 86400 (Lean's `Int`
division is Euclidean, hence floor for a positive divisor). -/
def localDay (o t : Int) : Int := (t + o) / secPerDay

/-- UTC instant of the next local midnight strictly after `t`
(`time.Date(year, month, day+1, 0, 0, 0, 0, loc)` of the local date of `t`).
For a fixed-offset zone this is exact. -/
def nextMidnightUTC (o t : Int) : Int := (localDay o t + 1) * secPerDay - o

/-- Civil (year, month, day) from a day number counted from 1970-01-01,
the standard days-to-civil conversion used to model Go's
`Format("2006-01-02")` date label. -/
def civilFromDays (z0 : Int) : CivilDate :=
  let z := z0 + 719468
  let era : Int := z / 146097
  let doe : Int := z - era * 146097
  let yoe : Int := (doe - doe / 1460 + doe / 36524 - doe / 146096) / 365
  let y : Int := yoe + era * 400
  let doy : Int := doe - (365 * yoe + yoe / 4 - yoe / 100)
  let mp : Int := (5 * doy + 2) / 153
  let d : Int := doy - (153 * mp + 2) / 5 + 1
  let m : Int := if mp < 10 then mp + 3 else mp - 9
  (if m ≤ 2 then y + 1 else y, m, d)

/-- One emitted day segment of the slicer: the local date label of the
segment start and the segment's duration in seconds (a UTC difference). -/
structure DaySeg where
  dateLocal : CivilDate
  durationSeconds : Int
deriving DecidableEq

/-- The slicer's walk over local-midnight boundaries.  The Go `for` loop is
given explicit fuel; every iteration advances the cursor by at least one
second, so fuel `(endT - cur).toNat` is always sufficient (proved below).
Each iteration: segment end is the earlier of the next local midnight and
`endT`; the duration is the UTC difference, floored at zero; a segment is
emitted only when its duration is positive. -/
def sliceLoopF : Nat → Int → Int → Int → List DaySeg
  | 0, _, _, _ => []
  | Nat.succ n, o, endT, cur =>
    if cur < endT then
      let nm := nextMidnightUTC o cur
      let segEnd := if nm < endT then nm else endT
      let d0 := segEnd - cur
      let segDur := if d0 < 0 then 0 else d0
      let rest := sliceLoopF n o endT segEnd
      if 0 < segDur then
        { dateLocal := civilFromDays (localDay o cur), durationSeconds := segDur } :: rest
      else rest
    else []

/-- Model of `sliceIntervalIntoDays` (pure core): splits `[startT, endT)` across local
midnight boundaries of the fixed-offset zone `o`.  A zero or negative
interval produces no segments. -/
def sliceIntervalIntoDays (o startT endT : Int) : List DaySeg :=
  if startT < endT then sliceLoopF (endT - startT).toNat o endT startT else []

/-- Sum of the durations of a list of day segments. -/
def sumDur : List DaySeg → Int
  | [] => 0
  | s :: rest => s.durationSeconds + sumDur rest

/-! ### Storage operations (storage `db.go`) -/

/-- Model of `InsertEvent`: appends one event row. -/
def insertEvent (db : DB) (sid : String) (whenUTC : Int)
    (action category description : String) : DB :=
  { db with
    events := db.events ++
      [{ id := db.nextEventId, sessionID := sid, timestampUTC := whenUTC,
         action := action, category := category, description := description }],
    nextEventId := db.nextEventId + 1 }

/-- Model of `OpenInterval`: inserts one interval row with `end_utc` and
`duration_seconds` NULL. -/
def openInterval (db : DB) (sid : String) (intervalIndex : Nat) (startUTC : Int)
    (category description : String) : DB :=
  { db with
    intervals := db.intervals ++
      [{ id := db.nextIntervalId, sessionID := sid, intervalIndex := intervalIndex,
         startUTC := startUTC, endUTC := none, category := category,
         description := description, durationSeconds := none }],
    nextIntervalId := db.nextIntervalId + 1 }

/-- Model of `SELECT id FROM intervals WHERE session_id = ? AND end_utc IS NULL
ORDER BY id DESC LIMIT 1`: the open row of `sid` with the highest id. -/
def findOpenStep (sid : String) (acc : Option IntervalRow) (r : IntervalRow) :
    Option IntervalRow :=
  if r.sessionID = sid ∧ r.endUTC = none then
    match acc with
    | none => some r
    | some a => if a.id < r.id then some r else some a
  else acc

def findOpenInterval (rows : List IntervalRow) (sid : String) : Option IntervalRow :=
  rows.foldl (findOpenStep sid) none

/-- Model of `SELECT ... FROM intervals WHERE end_utc IS NULL ORDER BY id DESC LIMIT 1`
(restoration): the open row, any session, with the highest id. -/
def findOpenIntervalAny (rows : List IntervalRow) : Option IntervalRow :=
  rows.foldl
    (fun acc r =>
      if r.endUTC = none then
        match acc with
        | none => some r
        | some a => if a.id < r.id then some r else some a
      else acc)
    none

/-- Model of `SELECT ... FROM events ORDER BY id DESC LIMIT 1`: the event row with the
highest id. -/
def lastEventRow (rows : List EventRow) : Option EventRow :=
  rows.foldl
    (fun acc r =>
      match acc with
      | none => some r
      | some a => if a.id < r.id then some r else some a)
    none

/-- The `interval_days` rows the slice transaction inserts for one closed
interval: the pure slicer's output tagged with the owning interval and
consecutive autoincrement ids starting at `firstId`. -/
def sliceRowsFor (o : Int) (intervalID : Nat) (sid cat desc : String)
    (startT endT : Int) (firstId : Nat) : List SliceRow :=
  (sliceIntervalIntoDays o startT endT).enum.map
    (fun p =>
      { id := firstId + p.1, intervalID := intervalID, sessionID := sid,
        dateLocal := p.2.dateLocal, category := cat, description := desc,
        durationSeconds := p.2.durationSeconds })

/-- Next write outcome of a failure schedule (empty schedule: success). -/
def takeOutcome (sched : List Bool) : Bool × List Bool :=
  match sched with
  | [] => (true, [])
  | b :: rest => (b, rest)

/-- Model of `CloseOpenIntervalAndSliceDays` with injected write outcomes.  Mirrors the
source: (1) find the open interval of `sid` with the highest id, failing with
the wrapped no-rows error if none; (2) compute the duration as
`endT - startT` floored at zero; (3) `UPDATE` the row — a standalone
autocommit `db.Exec`, consuming one write outcome; (4) run the slice inserts
inside one transaction, modelled as a single fallible unit consuming one
write outcome; if it fails the transaction rolls back, leaving the committed
`UPDATE` of step (3) in place. -/
def closeOpenIntervalAndSliceDaysF (sched : List Bool) (db : DB) (sid : String)
    (startT endT : Int) (cat desc : String) (o : Int) : DB × Option Err :=
  match findOpenInterval db.intervals sid with
  | none => (db, some (Err.findOpenIntervalFailed Err.noRows))
  | some row =>
    let d0 := endT - startT
    let dur := if d0 < 0 then 0 else d0
    let out1 := takeOutcome sched
    if out1.1 = false then (db, some Err.writeFailed)
    else
      let db1 := { db with
        intervals := db.intervals.map
          (fun r => if r.id = row.id then
            { r with endUTC := some endT, durationSeconds := some dur } else r) }
      let out2 := takeOutcome out1.2
      if out2.1 = false then (db1, some Err.writeFailed)
      else
        let newSlices := sliceRowsFor o row.id sid cat desc startT endT db1.nextSliceId
        ({ db1 with slices := db1.slices ++ newSlices,
                    nextSliceId := db1.nextSliceId + newSlices.length }, none)

/-- Model of `CloseOpenIntervalAndSliceDays` when every write succeeds. -/
def closeOpenIntervalAndSliceDays (db : DB) (sid : String) (startT endT : Int)
    (cat desc : String) (o : Int) : DB × Option Err :=
  closeOpenIntervalAndSliceDaysF [] db sid startT endT cat desc o

/-! ### Session state machine (domain `state.go`)

Each operation returns the final in-memory state, the final database and an
optional error — Go mutates the receiver in place, so the state component is
meaningful on the error paths too. -/

/-- Result of a mutating state-machine operation. -/
abbrev OpResult := AppState × DB × Option Err

/-- Model of `StartWork` with injected write outcomes.  From `Stopped`: validates the
category, advances the in-memory fields (the source mutates the receiver
before any write), then inserts the START event and opens the interval.
From `Paused`: increments the interval index, advances the fields, then
inserts the RESUME event and opens the interval.  From `InProgress`: fails
with `invalidTransition`. -/
def startWorkF (sched : List Bool) (st : AppState) (db : DB) (nowUTC : Int)
    (description category : String) (newSid : String) : OpResult :=
  match st.currentState with
  | State.Stopped =>
    if category = "" then (st, db, some Err.categoryRequired)
    else
      let st1 :=
        { st with
          sessionID := newSid, intervalIndex := 0, description := description,
          category := category, intervalStart := nowUTC,
          currentState := State.InProgress }
      let out1 := takeOutcome sched
      if out1.1 = false then (st1, db, some Err.writeFailed)
      else
        let db1 := insertEvent db st1.sessionID nowUTC actStart st1.category st1.description
        let out2 := takeOutcome out1.2
        if out2.1 = false then (st1, db1, some Err.writeFailed)
        else
          (st1, openInterval db1 st1.sessionID st1.intervalIndex st1.intervalStart
                  st1.category st1.description, none)
  | State.Paused =>
    let st1 :=
      { st with
        intervalIndex := st.intervalIndex + 1, intervalStart := nowUTC,
        currentState := State.InProgress }
    let out1 := takeOutcome sched
    if out1.1 = false then (st1, db, some Err.writeFailed)
    else
      let db1 := insertEvent db st1.sessionID nowUTC actResume st1.category st1.description
      let out2 := takeOutcome out1.2
      if out2.1 = false then (st1, db1, some Err.writeFailed)
      else
        (st1, openInterval db1 st1.sessionID st1.intervalIndex st1.intervalStart
                st1.category st1.description, none)
  | State.InProgress => (st, db, some Err.invalidTransition)

/-- Model of `StartWork` when every write succeeds. -/
def startWork (st : AppState) (db : DB) (nowUTC : Int)
    (description category : String) (newSid : String) : OpResult :=
  startWorkF [] st db nowUTC description category newSid

/-- Model of `PauseWork`: legal only from `InProgress`; closes the open interval (with
day slicing), then inserts the PAUSE event, then moves to `Paused`.  The
in-memory state is only advanced after both writes succeed. -/
def pauseWork (st : AppState) (db : DB) (nowUTC : Int) (o : Int) : OpResult :=
  if st.currentState ≠ State.InProgress then (st, db, some Err.invalidTransition)
  else
    match closeOpenIntervalAndSliceDays db st.sessionID st.intervalStart nowUTC
            st.category st.description o with
    | (db1, some e) => (st, db1, some e)
    | (db1, none) =>
      let db2 := insertEvent db1 st.sessionID nowUTC actPause st.category st.description
      ({ st with currentState := State.Paused }, db2, none)

/-- Model of `StopWork`: illegal from `Stopped`; from `InProgress` first closes the
open interval (with day slicing); then inserts the STOP event and resets
`currentState`, `sessionID`, `intervalIndex` and `intervalStart` — the source
deliberately leaves `Category` and `Description` at their last values. -/
def stopWork (st : AppState) (db : DB) (nowUTC : Int) (o : Int) : OpResult :=
  if st.currentState = State.Stopped then (st, db, some Err.invalidTransition)
  else
    let closeRes :=
      if st.currentState = State.InProgress then
        closeOpenIntervalAndSliceDays db st.sessionID st.intervalStart nowUTC
          st.category st.description o
      else (db, none)
    match closeRes with
    | (db1, some e) => (st, db1, some e)
    | (db1, none) =>
      let db2 := insertEvent db1 st.sessionID nowUTC actStop st.category st.description
      ({ st with
          currentState := State.Stopped, sessionID := "", intervalIndex := 0,
          intervalStart := 0 }, db2, none)

/-- Model of `RestoreState`: if an open interval exists (highest id), restore it as an
`InProgress` session; otherwise, if the most recent event is a PAUSE, restore
a `Paused` session (interval index untouched); otherwise leave the state as
is.  Purely a read: the database is returned unchanged. -/
def restoreState (st : AppState) (db : DB) : AppState × DB :=
  match findOpenIntervalAny db.intervals with
  | some row =>
    ({ st with
        sessionID := row.sessionID, intervalIndex := row.intervalIndex,
        intervalStart := row.startUTC, category := row.category,
        description := row.description, currentState := State.InProgress }, db)
  | none =>
    match lastEventRow db.events with
    | none => (st, db)
    | some ev =>
      if ev.action = actPause then
        ({ st with
            sessionID := ev.sessionID, category := ev.category,
            description := ev.description, currentState := State.Paused }, db)
      else (st, db)

/-! ### Concrete example data (used by the witnesses below) -/

/-- Example session id. -/
def sidEx : String := "session-1"

/-- Example category. -/
def catTask : String := "Task"

/-- Example description. -/
def descEx : String := "write spec"

/-- A database holding exactly one open interval (id 1, session `sidEx`,
index 0, start 100). -/
def dbOpen1 : DB := openInterval emptyDB sidEx 0 100 catTask descEx

/-- The single (open) interval row of `dbOpen1`. -/
def rowOpen1 : IntervalRow :=
  { id := 1, sessionID := sidEx, intervalIndex := 0, startUTC := 100,
    endUTC := none, category := catTask, description := descEx,
    durationSeconds := none }

/-- A closed interval row with interval index 5 (a session whose highest
persisted interval index is well above zero). -/
def rowClosedIdx5 : IntervalRow :=
  { id := 1, sessionID := sidEx, intervalIndex := 5, startUTC := 100,
    endUTC := some 200, category := catTask, description := descEx,
    durationSeconds := some 100 }

/-- A PAUSE event row. -/
def evPause1 : EventRow :=
  { id := 1, sessionID := sidEx, timestampUTC := 200, action := actPause,
    category := catTask, description := descEx }

/-- A database with no open interval, a trailing PAUSE event, and a closed
interval of index 5 for the paused session. -/
def dbPausedIdx5 : DB :=
  { events := [evPause1], intervals := [rowClosedIdx5], slices := [],
    nextEventId := 2, nextIntervalId := 2, nextSliceId := 1 }

/-- A database whose only interval row is closed (so no open interval exists
for any session). -/
def dbClosedOnly : DB :=
  { events := [], intervals := [rowClosedIdx5], slices := [],
    nextEventId := 1, nextIntervalId := 2, nextSliceId := 1 }

theorem lt_nextMidnightUTC (o t : Int) : t < nextMidnightUTC o t := by
  unfold nextMidnightUTC localDay secPerDay
  omega

theorem sliceLoopF_stop (n : Nat) (o endT cur : Int) (h : ¬ cur < endT) :
    sliceLoopF n o endT cur = [] := by
  cases n with
  | zero => rfl
  | succ n => simp [sliceLoopF, h]

theorem sliceLoopF_sum (o endT : Int) :
    ∀ (n : Nat) (cur : Int), cur < endT → endT - cur ≤ (n : Int) →
      sumDur (sliceLoopF n o endT cur) = endT - cur := by
  intro n
  induction n with
  | zero => intro cur h1 h2; omega
  | succ n ih =>
    intro cur h1 h2
    have hnm := lt_nextMidnightUTC o cur
    rw [sliceLoopF]
    simp only [if_pos h1]
    by_cases hc : nextMidnightUTC o cur < endT
    · have hd : ¬ (nextMidnightUTC o cur - cur < 0) := by omega
      have hp : (0 : Int) < nextMidnightUTC o cur - cur := by omega
      simp only [if_pos hc, if_neg hd, if_pos hp, sumDur]
      have hrec := ih (nextMidnightUTC o cur) hc (by omega)
      rw [hrec]
      omega
    · have hd : ¬ (endT - cur < 0) := by omega
      have hp : (0 : Int) < endT - cur := by omega
      simp only [if_neg hc, if_neg hd, if_pos hp, sumDur]
      rw [sliceLoopF_stop n o endT endT (by omega)]
      simp [sumDur]


theorem findOpen_foldl_some (sid : String) :
    ∀ (rows : List IntervalRow) (acc : Option IntervalRow) (row : IntervalRow),
      rows.foldl (findOpenStep sid) acc = some row →
      (some row = acc ∨ (row.sessionID = sid ∧ row.endUTC = none ∧ row ∈ rows)) ∧
      (∀ a, acc = some a → a.id ≤ row.id) ∧
      (∀ q ∈ rows, q.sessionID = sid → q.endUTC = none → q.id ≤ row.id) := by
  intro rows
  induction rows with
  | nil =>
    intro acc row h
    simp only [List.foldl] at h
    refine ⟨Or.inl h.symm, ?_, ?_⟩
    · intro a ha
      rw [h] at ha
      cases ha
      exact le_refl _
    · intro q hq
      exact absurd hq (List.not_mem_nil q)
  | cons r rest ih =>
    intro acc row h
    simp only [List.foldl] at h
    obtain ⟨h1, h2, h3⟩ := ih (findOpenStep sid acc r) row h
    by_cases hc : r.sessionID = sid ∧ r.endUTC = none
    · cases acc with
      | none =>
        have hs : findOpenStep sid none r = some r := by
          simp [findOpenStep, hc]
        have hr : r.id ≤ row.id := h2 r hs
        refine ⟨?_, ?_, ?_⟩
        · rcases h1 with h1 | h1
          · rw [hs] at h1
            cases h1
            exact Or.inr ⟨hc.1, hc.2, List.mem_cons_self r rest⟩
          · exact Or.inr ⟨h1.1, h1.2.1, List.mem_cons_of_mem r h1.2.2⟩
        · intro a ha
          exact absurd ha (by simp)
        · intro q hq hqs hqe
          rcases List.mem_cons.mp hq with rfl | hq'
          · exact hr
          · exact h3 q hq' hqs hqe
      | some a =>
        by_cases hid : a.id < r.id
        · have hs : findOpenStep sid (some a) r = some r := by
            simp [findOpenStep, hc, hid]
          have hr : r.id ≤ row.id := h2 r hs
          refine ⟨?_, ?_, ?_⟩
          · rcases h1 with h1 | h1
            · rw [hs] at h1
              cases h1
              exact Or.inr ⟨hc.1, hc.2, List.mem_cons_self r rest⟩
            · exact Or.inr ⟨h1.1, h1.2.1, List.mem_cons_of_mem r h1.2.2⟩
          · intro a0 ha0
            cases ha0
            omega
          · intro q hq hqs hqe
            rcases List.mem_cons.mp hq with rfl | hq'
            · exact hr
            · exact h3 q hq' hqs hqe
        · have hs : findOpenStep sid (some a) r = some a := by
            simp [findOpenStep, hc, hid]
          have ha : a.id ≤ row.id := h2 a hs
          refine ⟨?_, ?_, ?_⟩
          · rcases h1 with h1 | h1
            · rw [hs] at h1
              exact Or.inl h1
            · exact Or.inr ⟨h1.1, h1.2.1, List.mem_cons_of_mem r h1.2.2⟩
          · intro a0 ha0
            cases ha0
            exact ha
          · intro q hq hqs hqe
            rcases List.mem_cons.mp hq with rfl | hq'
            · omega
            · exact h3 q hq' hqs hqe
    · have hs : findOpenStep sid acc r = acc := by
        simp [findOpenStep, hc]
      rw [hs] at h1 h2
      refine ⟨?_, h2, ?_⟩
      · rcases h1 with h1 | h1
        · exact Or.inl h1
        · exact Or.inr ⟨h1.1, h1.2.1, List.mem_cons_of_mem r h1.2.2⟩
      · intro q hq hqs hqe
        rcases List.mem_cons.mp hq with rfl | hq'
        · exact absurd ⟨hqs, hqe⟩ hc
        · exact h3 q hq' hqs hqe

theorem findOpen_foldl_none (sid : String) :
    ∀ (rows : List IntervalRow) (acc : Option IntervalRow),
      rows.foldl (findOpenStep sid) acc = none →
      acc = none ∧ ∀ q ∈ rows, ¬(q.sessionID = sid ∧ q.endUTC = none) := by
  intro rows
  induction rows with
  | nil =>
    intro acc h
    simp only [List.foldl] at h
    exact ⟨h, by intro q hq; exact absurd hq (List.not_mem_nil q)⟩
  | cons r rest ih =>
    intro acc h
    simp only [List.foldl] at h
    obtain ⟨hstep, hrest⟩ := ih (findOpenStep sid acc r) h
    by_cases hc : r.sessionID = sid ∧ r.endUTC = none
    · exfalso
      cases acc with
      | none => simp [findOpenStep, hc] at hstep
      | some a =>
        by_cases hid : a.id < r.id
        · simp [findOpenStep, hc, hid] at hstep
        · simp [findOpenStep, hc, hid] at hstep
    · have hs : findOpenStep sid acc r = acc := by
        simp [findOpenStep, hc]
      rw [hs] at hstep
      refine ⟨hstep, ?_⟩
      intro q hq
      rcases List.mem_cons.mp hq with rfl | hq'
      · exact hc
      · exact hrest q hq'

theorem findOpenInterval_max (rows : List IntervalRow) (sid : String) (row : IntervalRow)
    (h : findOpenInterval rows sid = some row) :
    row.sessionID = sid ∧ row.endUTC = none ∧ row ∈ rows ∧
    ∀ q ∈ rows, q.sessionID = sid → q.endUTC = none → q.id ≤ row.id := by
  obtain ⟨h1, _, h3⟩ := findOpen_foldl_some sid rows none row h
  rcases h1 with h1 | h1
  · exact absurd h1.symm (by simp)
  · exact ⟨h1.1, h1.2.1, h1.2.2, h3⟩

theorem findOpenInterval_none (rows : List IntervalRow) (sid : String)
    (h : findOpenInterval rows sid = none) :
    ∀ q ∈ rows, ¬(q.sessionID = sid ∧ q.endUTC = none) :=
  (findOpen_foldl_none sid rows none h).2

/-- C1: Day-slicer conservation — for every pair of UTC instants with
`startT < endT` and every local zone (modelled as a fixed UTC offset `o`),
the sum of the `durationSeconds` of all day segments emitted by
`sliceIntervalIntoDays` equals `endT - startT` exactly. -/
theorem sliceIntervalIntoDays_conservation (o startT endT : Int) (h : startT < endT) :
    sumDur (sliceIntervalIntoDays o startT endT) = endT - startT := by
  unfold sliceIntervalIntoDays
  rw [if_pos h]
  exact sliceLoopF_sum o endT (endT - startT).toNat startT h (by omega)

theorem sliceIntervalIntoDays_conservation_witness :
    (1705361400 : Int) < 1705539000 ∧
    sumDur (sliceIntervalIntoDays 3600 1705361400 1705539000) = 1705539000 - 1705361400 :=
  ⟨by decide, sliceIntervalIntoDays_conservation 3600 1705361400 1705539000 (by decide)⟩

/-- C2: For a call legal in the current state, Start/Pause/Stop never return
`invalidTransition`; for a call violating the transition graph (Start from
InProgress, Pause unless InProgress, Stop from Stopped), the operation
returns `invalidTransition` and leaves both the database and the in-memory
state exactly unchanged. -/
theorem transitions_invalid_iff (st : AppState) (db : DB) (nowUTC : Int)
    (description category newSid : String) (o : Int) :
    ((startWork st db nowUTC description category newSid).2.2 = some Err.invalidTransition ↔
       st.currentState = State.InProgress) ∧
    (st.currentState = State.InProgress →
       startWork st db nowUTC description category newSid = (st, db, some Err.invalidTransition)) ∧
    ((pauseWork st db nowUTC o).2.2 = some Err.invalidTransition ↔
       st.currentState ≠ State.InProgress) ∧
    (st.currentState ≠ State.InProgress →
       pauseWork st db nowUTC o = (st, db, some Err.invalidTransition)) ∧
    ((stopWork st db nowUTC o).2.2 = some Err.invalidTransition ↔
       st.currentState = State.Stopped) ∧
    (st.currentState = State.Stopped →
       stopWork st db nowUTC o = (st, db, some Err.invalidTransition)) := by
  cases hst : st.currentState with
  | Stopped =>
    by_cases hcat : category = ""
    · simp [startWork, startWorkF, pauseWork, stopWork, hst, hcat, takeOutcome]
    · simp [startWork, startWorkF, pauseWork, stopWork, hst, hcat, takeOutcome]
  | InProgress =>
    rcases hfind : findOpenInterval db.intervals st.sessionID with _ | row
    · simp [startWork, startWorkF, pauseWork, stopWork, hst, hfind,
            closeOpenIntervalAndSliceDays, closeOpenIntervalAndSliceDaysF, takeOutcome]
    · simp [startWork, startWorkF, pauseWork, stopWork, hst, hfind,
            closeOpenIntervalAndSliceDays, closeOpenIntervalAndSliceDaysF, takeOutcome]
  | Paused =>
    simp [startWork, startWorkF, pauseWork, stopWork, hst, takeOutcome]

theorem transitions_invalid_iff_witness :
    newAppState.currentState ≠ State.InProgress ∧
    newAppState.currentState = State.Stopped ∧
    pauseWork newAppState emptyDB 100 0 = (newAppState, emptyDB, some Err.invalidTransition) ∧
    stopWork newAppState emptyDB 100 0 = (newAppState, emptyDB, some Err.invalidTransition) :=
  ⟨by decide, by decide,
   (transitions_invalid_iff newAppState emptyDB 100 descEx catTask sidEx 0).2.2.2.1 (by decide),
   (transitions_invalid_iff newAppState emptyDB 100 descEx catTask sidEx 0).2.2.2.2.2 (by decide)⟩

/-- C3 counterexample: with a write schedule under which the interval-close
`UPDATE` succeeds but the slice transaction fails, the close commits (the
row's `end_utc` is set) while none of its DaySlice rows are persisted, even
though the slicer emits a nonempty list — the close and the slice inserts
are not one atomic unit. -/
theorem close_not_atomic_counterexample :
    (closeOpenIntervalAndSliceDaysF [true, false] dbOpen1 sidEx 100 200 catTask descEx 0).2 =
      some Err.writeFailed ∧
    ((closeOpenIntervalAndSliceDaysF [true, false] dbOpen1 sidEx 100 200 catTask descEx 0).1.intervals.map
        IntervalRow.endUTC) = [some 200] ∧
    (closeOpenIntervalAndSliceDaysF [true, false] dbOpen1 sidEx 100 200 catTask descEx 0).1.slices = [] ∧
    sliceRowsFor 0 1 sidEx catTask descEx 100 200 1 ≠ [] := by decide

/-- C3 (amended): the DaySlice inserts are atomic among themselves — after
`CloseOpenIntervalAndSliceDays`, the slice table is either unchanged or
extended by exactly the full set of slices of the closed interval; but the
interval-close update itself is a separate, earlier autocommit write, so a
slicing failure leaves the interval closed with no slices. -/
theorem close_slices_all_or_nothing (sched : List Bool) (db : DB) (sid : String)
    (startT endT : Int) (cat desc : String) (o : Int) :
    (closeOpenIntervalAndSliceDaysF sched db sid startT endT cat desc o).1.slices = db.slices ∨
    ∃ row, findOpenInterval db.intervals sid = some row ∧
      (closeOpenIntervalAndSliceDaysF sched db sid startT endT cat desc o).2 = none ∧
      (closeOpenIntervalAndSliceDaysF sched db sid startT endT cat desc o).1.slices =
        db.slices ++ sliceRowsFor o row.id sid cat desc startT endT db.nextSliceId := by
  rcases hfind : findOpenInterval db.intervals sid with _ | row
  · simp [closeOpenIntervalAndSliceDaysF, hfind]
  · rcases hto1 : takeOutcome sched with ⟨b1, s1⟩
    cases b1
    · simp [closeOpenIntervalAndSliceDaysF, hfind, hto1]
    · rcases hto2 : takeOutcome s1 with ⟨b2, s2⟩
      cases b2
      · simp [closeOpenIntervalAndSliceDaysF, hfind, hto1, hto2]
      · right
        refine ⟨row, rfl, ?_, ?_⟩
        · simp [closeOpenIntervalAndSliceDaysF, hfind, hto1, hto2]
        · simp [closeOpenIntervalAndSliceDaysF, hfind, hto1, hto2]

/-- C5: Restoration — with an open interval present (highest id), Restore
becomes InProgress carrying that row's fields; with none and a trailing
PAUSE event, Restore becomes Paused carrying the event's session fields;
with a trailing non-PAUSE event or no events at all, the state is unchanged;
and Restore never writes (the database is returned unchanged). -/
theorem restoreState_spec (st : AppState) (db : DB) :
    (restoreState st db).2 = db ∧
    (∀ row, findOpenIntervalAny db.intervals = some row →
       (restoreState st db).1 =
         { st with
           sessionID := row.sessionID, intervalIndex := row.intervalIndex,
           intervalStart := row.startUTC, category := row.category,
           description := row.description, currentState := State.InProgress }) ∧
    (findOpenIntervalAny db.intervals = none →
       (∀ ev, lastEventRow db.events = some ev →
          (ev.action = actPause →
             (restoreState st db).1 =
               { st with
                 sessionID := ev.sessionID, category := ev.category,
                 description := ev.description, currentState := State.Paused }) ∧
          (ev.action ≠ actPause → (restoreState st db).1 = st)) ∧
       (lastEventRow db.events = none → (restoreState st db).1 = st)) := by
  rcases hopen : findOpenIntervalAny db.intervals with _ | row
  · rcases hev : lastEventRow db.events with _ | ev
    · simp [restoreState, hopen, hev]
    · by_cases hact : ev.action = actPause
      · simp [restoreState, hopen, hev, hact]
      · simp [restoreState, hopen, hev, hact]
  · simp [restoreState, hopen]

theorem restoreState_spec_witness :
    findOpenIntervalAny dbOpen1.intervals = some rowOpen1 ∧
    (restoreState newAppState dbOpen1).1 =
      { newAppState with
        sessionID := rowOpen1.sessionID, intervalIndex := rowOpen1.intervalIndex,
        intervalStart := rowOpen1.startUTC, category := rowOpen1.category,
        description := rowOpen1.description, currentState := State.InProgress } :=
  ⟨by decide, (restoreState_spec newAppState dbOpen1).2.1 rowOpen1 (by decide)⟩

/-- C4 (code-bug exhibit): `StartWork` from Stopped advances the in-memory
state before its writes; when the first write (the START event insert) fails,
the call returns the error with the database untouched but the in-memory
state already InProgress with the new session id — memory and durable log
diverge, contrary to the stated requirement.  (`PauseWork`/`StopWork` order
their writes before the in-memory update and are not affected.) -/
theorem startWork_memory_advanced_on_write_failure :
    (startWorkF [false] newAppState emptyDB 100 descEx catTask sidEx).2.2 =
      some Err.writeFailed ∧
    (startWorkF [false] newAppState emptyDB 100 descEx catTask sidEx).2.1 = emptyDB ∧
    (startWorkF [false] newAppState emptyDB 100 descEx catTask sidEx).1.currentState =
      State.InProgress ∧
    (startWorkF [false] newAppState emptyDB 100 descEx catTask sidEx).1.sessionID = sidEx ∧
    (startWorkF [false] newAppState emptyDB 100 descEx catTask sidEx).1 ≠ newAppState := by
  decide

/-- C6 counterexample: for Start at 2024-01-15T23:30:00Z (epoch 1705361400),
Stop at 2024-01-16T01:10:00Z (epoch 1705367400), local zone UTC+1, the
slicer emits exactly one slice labelled 2024-01-16 — but its duration is
6000 seconds (the full 100 minutes of `endUTC - startUTC`), not the 2400
the claim states. -/
theorem example_slice_duration_counterexample :
    sliceIntervalIntoDays 3600 1705361400 1705367400 =
      [{ dateLocal := (2024, 1, 16), durationSeconds := 6000 }] ∧
    (6000 : Int) ≠ 2400 := by decide

/-- C6 (amended): Start("write spec","Task") at 2024-01-15T23:30:00Z in zone
UTC+1 followed by Stop() at 2024-01-16T01:10:00Z persists exactly one
DaySlice row, with local date 2024-01-16 and duration 6000 seconds. -/
theorem example_start_stop_one_slice :
    (stopWork (startWork newAppState emptyDB 1705361400 descEx catTask sidEx).1
        (startWork newAppState emptyDB 1705361400 descEx catTask sidEx).2.1
        1705367400 3600).2.2 = none ∧
    (stopWork (startWork newAppState emptyDB 1705361400 descEx catTask sidEx).1
        (startWork newAppState emptyDB 1705361400 descEx catTask sidEx).2.1
        1705367400 3600).2.1.slices =
      [{ id := 1, intervalID := 1, sessionID := sidEx, dateLocal := (2024, 1, 16),
         category := catTask, description := descEx, durationSeconds := 6000 }] := by
  decide

/-- C7 counterexample: after a successful Stop of a session with category
"Task", the in-memory category (and description) still hold the session's
last values instead of being reset to empty. -/
theorem stop_retains_category_counterexample :
    (stopWork (startWork newAppState emptyDB 100 descEx catTask sidEx).1
        (startWork newAppState emptyDB 100 descEx catTask sidEx).2.1 200 0).2.2 = none ∧
    (stopWork (startWork newAppState emptyDB 100 descEx catTask sidEx).1
        (startWork newAppState emptyDB 100 descEx catTask sidEx).2.1 200 0).1.category =
      catTask ∧
    (stopWork (startWork newAppState emptyDB 100 descEx catTask sidEx).1
        (startWork newAppState emptyDB 100 descEx catTask sidEx).2.1 200 0).1.description =
      descEx ∧
    catTask ≠ "" := by decide

/-- C7 (amended): after every successful Stop, `currentState` is Stopped and
`sessionID`, `intervalIndex` and `intervalStart` are reset to their
empty/zero values, while `category` and `description` retain their last
values. -/
theorem stopWork_resets_except_category (st : AppState) (db : DB) (nowUTC o : Int)
    (h1 : st.currentState ≠ State.Stopped)
    (h2 : (stopWork st db nowUTC o).2.2 = none) :
    (stopWork st db nowUTC o).1 =
      { st with
        currentState := State.Stopped, sessionID := "", intervalIndex := 0,
        intervalStart := 0 } := by
  cases hst : st.currentState with
  | Stopped => exact absurd hst h1
  | InProgress =>
    rcases hfind : findOpenInterval db.intervals st.sessionID with _ | row
    · simp [stopWork, hst, closeOpenIntervalAndSliceDays,
            closeOpenIntervalAndSliceDaysF, hfind] at h2
    · simp [stopWork, hst, closeOpenIntervalAndSliceDays,
            closeOpenIntervalAndSliceDaysF, hfind, takeOutcome]
  | Paused =>
    simp [stopWork, hst]

theorem stopWork_resets_except_category_witness :
    (startWork newAppState emptyDB 100 descEx catTask sidEx).1.currentState ≠ State.Stopped ∧
    (stopWork (startWork newAppState emptyDB 100 descEx catTask sidEx).1
        (startWork newAppState emptyDB 100 descEx catTask sidEx).2.1 200 0).1 =
      { (startWork newAppState emptyDB 100 descEx catTask sidEx).1 with
        currentState := State.Stopped, sessionID := "", intervalIndex := 0,
        intervalStart := 0 } :=
  ⟨by decide,
   stopWork_resets_except_category
     (startWork newAppState emptyDB 100 descEx catTask sidEx).1
     (startWork newAppState emptyDB 100 descEx catTask sidEx).2.1 200 0
     (by decide) (by decide)⟩

/-- C8: When `CloseOpenIntervalAndSliceDays` closes the located open row
(whose persisted `start_utc` is the passed start instant, as the state
machine guarantees), the closed row's persisted values satisfy
`durationSeconds = endUTC - startUTC`, floored at zero. -/
theorem close_duration_invariant (db : DB) (sid : String) (startT endT : Int)
    (cat desc : String) (o : Int) (row : IntervalRow)
    (hfind : findOpenInterval db.intervals sid = some row)
    (hstart : row.startUTC = startT) :
    (closeOpenIntervalAndSliceDays db sid startT endT cat desc o).2 = none ∧
    ∀ q ∈ (closeOpenIntervalAndSliceDays db sid startT endT cat desc o).1.intervals,
      q.id = row.id →
        q.endUTC = some endT ∧
        q.durationSeconds =
          some (if endT - row.startUTC < 0 then 0 else endT - row.startUTC) := by
  subst hstart
  constructor
  · simp [closeOpenIntervalAndSliceDays, closeOpenIntervalAndSliceDaysF, hfind, takeOutcome]
  · intro q hq hid
    simp only [closeOpenIntervalAndSliceDays, closeOpenIntervalAndSliceDaysF, hfind,
               takeOutcome] at hq
    simp only [Bool.true_eq_false, if_false] at hq
    rcases List.mem_map.mp hq with ⟨p, hp, rfl⟩
    by_cases hpid : p.id = row.id
    · simp [hpid]
    · simp only [if_neg hpid] at hid
      exact absurd hid hpid

theorem close_duration_invariant_witness :
    findOpenInterval dbOpen1.intervals sidEx = some rowOpen1 ∧
    rowOpen1.startUTC = 100 ∧
    ∀ q ∈ (closeOpenIntervalAndSliceDays dbOpen1 sidEx 100 40 catTask descEx 0).1.intervals,
      q.id = rowOpen1.id →
        q.endUTC = some 40 ∧
        q.durationSeconds =
          some (if (40 : Int) - rowOpen1.startUTC < 0 then 0 else 40 - rowOpen1.startUTC) :=
  ⟨by decide, by decide,
   (close_duration_invariant dbOpen1 sidEx 100 40 catTask descEx 0 rowOpen1
     (by decide) (by decide)).2⟩

/-- C9 counterexample: with no open interval for the session, the close
fails with the wrapped find-error around the driver's no-rows error — not
with the declared `ErrNoOpenInterval` sentinel, which is never returned. -/
theorem close_error_is_not_sentinel :
    (closeOpenIntervalAndSliceDays dbClosedOnly sidEx 100 200 catTask descEx 0).2 =
      some (Err.findOpenIntervalFailed Err.noRows) ∧
    (closeOpenIntervalAndSliceDays dbClosedOnly sidEx 100 200 catTask descEx 0).2 ≠
      some Err.noOpenInterval := by decide

/-- C9 (amended): `CloseOpenIntervalAndSliceDays` locates the still-open
interval of the session with the highest insertion id; if no open interval
exists for that session it fails — with an error wrapping the driver's
no-rows error rather than the declared `ErrNoOpenInterval` sentinel —
without fabricating a close or writing any row (the database is returned
unchanged). -/
theorem close_locates_max_open_or_fails (db : DB) (sid : String) (startT endT : Int)
    (cat desc : String) (o : Int) :
    (findOpenInterval db.intervals sid = none →
       closeOpenIntervalAndSliceDays db sid startT endT cat desc o =
         (db, some (Err.findOpenIntervalFailed Err.noRows)) ∧
       ∀ q ∈ db.intervals, ¬(q.sessionID = sid ∧ q.endUTC = none)) ∧
    (∀ row, findOpenInterval db.intervals sid = some row →
       row.sessionID = sid ∧ row.endUTC = none ∧ row ∈ db.intervals ∧
       ∀ q ∈ db.intervals, q.sessionID = sid → q.endUTC = none → q.id ≤ row.id) := by
  constructor
  · intro h
    refine ⟨?_, findOpenInterval_none db.intervals sid h⟩
    simp [closeOpenIntervalAndSliceDays, closeOpenIntervalAndSliceDaysF, h]
  · intro row h
    exact findOpenInterval_max db.intervals sid row h

theorem close_locates_max_open_or_fails_witness :
    findOpenInterval dbClosedOnly.intervals sidEx = none ∧
    closeOpenIntervalAndSliceDays dbClosedOnly sidEx 100 200 catTask descEx 0 =
      (dbClosedOnly, some (Err.findOpenIntervalFailed Err.noRows)) :=
  ⟨by decide,
   ((close_locates_max_open_or_fails dbClosedOnly sidEx 100 200 catTask descEx 0).1
     (by decide)).1⟩

/-- C10: Restoring a Paused session from a trailing PAUSE event leaves
`intervalIndex` at its initial 0 regardless of the session's persisted
interval history, so the next Start (resume) opens an interval with
`intervalIndex = 1` even when the session's highest persisted interval index
is larger. -/
theorem restore_paused_then_resume_index_one (db : DB) (ev : EventRow) (nowUTC : Int)
    (description category newSid : String)
    (h1 : findOpenIntervalAny db.intervals = none)
    (h2 : lastEventRow db.events = some ev)
    (h3 : ev.action = actPause) :
    (restoreState newAppState db).1.intervalIndex = 0 ∧
    (restoreState newAppState db).1.currentState = State.Paused ∧
    (startWork (restoreState newAppState db).1 db nowUTC description category newSid).1.intervalIndex = 1 ∧
    (startWork (restoreState newAppState db).1 db nowUTC description category newSid).2.1.intervals =
      db.intervals ++
        [{ id := db.nextIntervalId, sessionID := ev.sessionID, intervalIndex := 1,
           startUTC := nowUTC, endUTC := none, category := ev.category,
           description := ev.description, durationSeconds := none }] := by
  simp [restoreState, h1, h2, h3, startWork, startWorkF, takeOutcome, insertEvent,
        openInterval, newAppState]

theorem restore_paused_then_resume_index_one_witness :
    findOpenIntervalAny dbPausedIdx5.intervals = none ∧
    lastEventRow dbPausedIdx5.events = some evPause1 ∧
    evPause1.action = actPause ∧
    rowClosedIdx5.intervalIndex = 5 ∧
    (startWork (restoreState newAppState dbPausedIdx5).1 dbPausedIdx5 300 descEx catTask
        sidEx).1.intervalIndex = 1 :=
  ⟨by decide, by decide, by decide, by decide,
   (restore_paused_then_resume_index_one dbPausedIdx5 evPause1 300 descEx catTask sidEx
     (by decide) (by decide) (by decide)).2.2.1⟩
